import Mathlib

/-!
Verification of the settings-override, autosave/persistence and generation-guard
logic of the golper-sagor story-authoring application (src/App.tsx, src/types.ts,
src/services/geminiService.ts).

Modelling conventions:
* JavaScript numbers are modelled as `Rat` (no arithmetic beyond equality is
  performed on them by the verified code paths).
* `JSON.stringify` / `JSON.parse` are modelled at the level of a JSON value
  tree (`Json` below): `stringify` of a plain object is determined by the
  object's value tree, and `parse` recovers exactly that tree, so string-level
  equality of serialized forms coincides with equality of the trees.
* Optional TypeScript fields (`genre?: ...`) are `Option` fields; an absent
  field is omitted by `JSON.stringify`, which the encoder mirrors.
* The browser event loop is modelled by explicit step functions on an
  application-state record; `setTimeout`/`clearTimeout` for the single autosave
  timer become a `Bool` flag armed/cleared by the steps and consumed by an
  explicit timer-fire step (at most one autosave timer can ever be pending,
  because re-arming always clears first, exactly as the source does).
-/

/-- The genre enumeration from src/types.ts. -/
inductive StoryGenre where
  | Romance | Thriller | AdultErotica | Drama | Social | Mystery | Historical
deriving DecidableEq, Repr

/-- The maturity-level enumeration from src/types.ts. -/
inductive MaturityLevel where
  | General | Adult | Explicit18
deriving DecidableEq, Repr

/-- The language-style enumeration from src/types.ts. -/
inductive LanguageStyle where
  | Sadhu | Cholitobhasha | ModernColloquial
deriving DecidableEq, Repr

/-- The chapter-length enumeration from src/types.ts. -/
inductive ChapterLength where
  | Short | Medium | Long | Epic
deriving DecidableEq, Repr

/-- GenerationSettings from src/types.ts.  `creativity: number` is a JS number,
modelled as `Rat`. -/
structure GenerationSettings where
  creativity : Rat
  length : ChapterLength
  tone : String
  customSystemPrompt : Option String
deriving DecidableEq, Repr

/-- StoryChapter from src/types.ts, with the four optional per-chapter
override fields. -/
structure StoryChapter where
  id : String
  title : String
  content : String
  genre : Option StoryGenre
  maturityLevel : Option MaturityLevel
  languageStyle : Option LanguageStyle
  settings : Option GenerationSettings
deriving DecidableEq, Repr

/-- StoryProject from src/types.ts.  `createdAt: number` (a `Date.now()`
timestamp) is modelled as `Rat`. -/
structure StoryProject where
  id : String
  title : String
  description : String
  genre : StoryGenre
  chapters : List StoryChapter
  maturityLevel : MaturityLevel
  languageStyle : LanguageStyle
  settings : GenerationSettings
  createdAt : Rat
deriving DecidableEq, Repr

/-- DEFAULT_SETTINGS from src/App.tsx line 17.  Note the source sets
`customSystemPrompt: ''`, i.e. the field is present with the empty string. -/
def DEFAULT_SETTINGS : GenerationSettings :=
  { creativity := 0.85
    length := ChapterLength.Long
    tone := "Passionate and Descriptive"
    customSystemPrompt := some "" }

/-! ## JSON value trees and the serialization used by the Persistence Store -/

/-- A JSON value, the image of `JSON.parse`/`JSON.stringify`.  Only the
constructors actually produced by the application data are included. -/
inductive Json where
  | str (s : String)
  | num (q : Rat)
  | arr (xs : List Json)
  | obj (fields : List (String × Json))

/-- String form of a genre, as it appears in JSON and in the TS union type. -/
def genreToString : StoryGenre → String
  | .Romance => "Romance"
  | .Thriller => "Thriller"
  | .AdultErotica => "Adult/Erotica"
  | .Drama => "Drama"
  | .Social => "Social"
  | .Mystery => "Mystery"
  | .Historical => "Historical"

/-- Partial inverse of `genreToString`. -/
def stringToGenre : String → Option StoryGenre
  | "Romance" => some .Romance
  | "Thriller" => some .Thriller
  | "Adult/Erotica" => some .AdultErotica
  | "Drama" => some .Drama
  | "Social" => some .Social
  | "Mystery" => some .Mystery
  | "Historical" => some .Historical
  | _ => none

/-- String form of a maturity level. -/
def maturityToString : MaturityLevel → String
  | .General => "General"
  | .Adult => "Adult"
  | .Explicit18 => "18+ Explicit"

/-- Partial inverse of `maturityToString`. -/
def stringToMaturity : String → Option MaturityLevel
  | "General" => some .General
  | "Adult" => some .Adult
  | "18+ Explicit" => some .Explicit18
  | _ => none

/-- String form of a language style. -/
def languageToString : LanguageStyle → String
  | .Sadhu => "Sadhu"
  | .Cholitobhasha => "Cholitobhasha"
  | .ModernColloquial => "Modern/Colloquial"

/-- Partial inverse of `languageToString`. -/
def stringToLanguage : String → Option LanguageStyle
  | "Sadhu" => some .Sadhu
  | "Cholitobhasha" => some .Cholitobhasha
  | "Modern/Colloquial" => some .ModernColloquial
  | _ => none

/-- String form of a chapter length. -/
def lengthToString : ChapterLength → String
  | .Short => "Short"
  | .Medium => "Medium"
  | .Long => "Long"
  | .Epic => "Epic"

/-- Partial inverse of `lengthToString`. -/
def stringToLength : String → Option ChapterLength
  | "Short" => some .Short
  | "Medium" => some .Medium
  | "Long" => some .Long
  | "Epic" => some .Epic
  | _ => none

/-- An optional object field: `JSON.stringify` omits fields whose value is
`undefined`, so an absent optional field contributes no entry. -/
def optField (k : String) : Option Json → List (String × Json)
  | some j => [(k, j)]
  | none => []

/-- JSON form of a `GenerationSettings` record, as `JSON.stringify` produces
it from the TS object. -/
def encodeSettings (s : GenerationSettings) : Json :=
  Json.obj ([("creativity", Json.num s.creativity),
             ("length", Json.str (lengthToString s.length)),
             ("tone", Json.str s.tone)] ++
            optField "customSystemPrompt" (s.customSystemPrompt.map Json.str))

/-- JSON form of a `StoryChapter`; absent override fields are omitted. -/
def encodeChapter (c : StoryChapter) : Json :=
  Json.obj ([("id", Json.str c.id),
             ("title", Json.str c.title),
             ("content", Json.str c.content)] ++
            optField "genre" (c.genre.map (fun g => Json.str (genreToString g))) ++
            optField "maturityLevel" (c.maturityLevel.map (fun m => Json.str (maturityToString m))) ++
            optField "languageStyle" (c.languageStyle.map (fun l => Json.str (languageToString l))) ++
            optField "settings" (c.settings.map encodeSettings))

/-- JSON form of a `StoryProject`; this is the serialized representation
written to the storage key and compared against `lastSavedRef`. -/
def serializeProject (p : StoryProject) : Json :=
  Json.obj [("id", Json.str p.id),
            ("title", Json.str p.title),
            ("description", Json.str p.description),
            ("genre", Json.str (genreToString p.genre)),
            ("chapters", Json.arr (p.chapters.map encodeChapter)),
            ("maturityLevel", Json.str (maturityToString p.maturityLevel)),
            ("languageStyle", Json.str (languageToString p.languageStyle)),
            ("settings", encodeSettings p.settings),
            ("createdAt", Json.num p.createdAt)]

/-- JSON form of the whole saved-projects collection (the value written under
the single storage key). -/
def serializeProjects (ps : List StoryProject) : Json :=
  Json.arr (ps.map serializeProject)

/-- Key lookup in a JSON object field list (first match, as JS property
access on the parsed object). -/
def jGet (fields : List (String × Json)) (k : String) : Option Json :=
  (fields.find? (fun f => f.1 == k)).map (fun f => f.2)

/-- Read a JSON value as a string. -/
def asStr : Json → Option String
  | .str s => some s
  | _ => none

/-- Read a JSON value as a number. -/
def asNum : Json → Option Rat
  | .num q => some q
  | _ => none

/-- Structural reading of a `GenerationSettings` from its JSON form.  The
source restores with an unvalidated cast (`JSON.parse(stored) as
StoryProject[]`); the cast is modelled as this structural read. -/
def decodeSettings (j : Json) : Option GenerationSettings :=
  match j with
  | .obj fs =>
    match (jGet fs "creativity").bind asNum,
          ((jGet fs "length").bind asStr).bind stringToLength,
          (jGet fs "tone").bind asStr with
    | some cr, some len, some tone =>
      match jGet fs "customSystemPrompt" with
      | none => some ⟨cr, len, tone, none⟩
      | some v => (asStr v).map (fun s => ⟨cr, len, tone, some s⟩)
    | _, _, _ => none
  | _ => none

/-- Structural reading of a `StoryChapter` from its JSON form. -/
def decodeChapter (j : Json) : Option StoryChapter :=
  match j with
  | .obj fs =>
    match (jGet fs "id").bind asStr,
          (jGet fs "title").bind asStr,
          (jGet fs "content").bind asStr with
    | some i, some t, some ct =>
      match jGet fs "genre", jGet fs "maturityLevel",
            jGet fs "languageStyle", jGet fs "settings" with
      | g, m, l, st =>
        match (match g with | none => some none
                            | some v => ((asStr v).bind stringToGenre).map some),
              (match m with | none => some none
                            | some v => ((asStr v).bind stringToMaturity).map some),
              (match l with | none => some none
                            | some v => ((asStr v).bind stringToLanguage).map some),
              (match st with | none => some none
                             | some v => (decodeSettings v).map some) with
        | some og, some om, some ol, some os => some ⟨i, t, ct, og, om, ol, os⟩
        | _, _, _, _ => none
    | _, _, _ => none
  | _ => none

/-- Structural reading of a chapter list. -/
def decodeChapters : List Json → Option (List StoryChapter)
  | [] => some []
  | j :: js =>
    match decodeChapter j, decodeChapters js with
    | some c, some cs => some (c :: cs)
    | _, _ => none

/-- Structural reading of a `StoryProject` from its JSON form. -/
def decodeProject (j : Json) : Option StoryProject :=
  match j with
  | .obj fs =>
    match (jGet fs "id").bind asStr,
          (jGet fs "title").bind asStr,
          (jGet fs "description").bind asStr,
          ((jGet fs "genre").bind asStr).bind stringToGenre,
          (jGet fs "chapters") with
    | some i, some t, some d, some g, some (.arr chjs) =>
      match decodeChapters chjs,
            ((jGet fs "maturityLevel").bind asStr).bind stringToMaturity,
            ((jGet fs "languageStyle").bind asStr).bind stringToLanguage,
            (jGet fs "settings").bind decodeSettings,
            (jGet fs "createdAt").bind asNum with
      | some chs, some m, some l, some st, some ca =>
        some ⟨i, t, d, g, chs, m, l, st, ca⟩
      | _, _, _, _, _ => none
    | _, _, _, _, _ => none
  | _ => none

/-- Structural reading of a project list, element by element. -/
def decodeProjectList : List Json → Option (List StoryProject)
  | [] => some []
  | x :: rest =>
    match decodeProject x, decodeProjectList rest with
    | some p, some ps => some (p :: ps)
    | _, _ => none

/-- Structural reading of the saved-projects collection; the source only
checks `Array.isArray(parsed)` before using the parsed value. -/
def decodeProjects (j : Json) : Option (List StoryProject) :=
  match j with
  | .arr xs => decodeProjectList xs
  | _ => none

/-- `saveAll` of the Persistence Store (spec section 4.1): the source writes
`localStorage.setItem(STORAGE_KEY, JSON.stringify(updated))`, a full-collection
overwrite of the single storage cell. -/
def saveAll (ps : List StoryProject) : Option Json :=
  some (serializeProjects ps)

/-- `load` of the Persistence Store (src/App.tsx lines 44-57): a missing key,
a parse failure or a non-array value restores nothing (empty sequence);
otherwise the parsed array is used as the saved-projects list. -/
def load (store : Option Json) : List StoryProject :=
  match store.bind decodeProjects with
  | some ps => ps
  | none => []

/-! ## Round-trip lemmas for the serialized representation -/

theorem stringToGenre_genreToString (g : StoryGenre) :
    stringToGenre (genreToString g) = some g := by cases g <;> rfl

theorem stringToMaturity_maturityToString (m : MaturityLevel) :
    stringToMaturity (maturityToString m) = some m := by cases m <;> rfl

theorem stringToLanguage_languageToString (l : LanguageStyle) :
    stringToLanguage (languageToString l) = some l := by cases l <;> rfl

theorem stringToLength_lengthToString (l : ChapterLength) :
    stringToLength (lengthToString l) = some l := by cases l <;> rfl

theorem decodeSettings_encodeSettings (s : GenerationSettings) :
    decodeSettings (encodeSettings s) = some s := by
  rcases s with ⟨cr, len, tone, csp⟩
  cases csp <;>
    simp [encodeSettings, decodeSettings, optField, jGet, asStr, asNum,
      stringToLength_lengthToString]

theorem decodeChapter_encodeChapter (c : StoryChapter) :
    decodeChapter (encodeChapter c) = some c := by
  rcases c with ⟨i, t, ct, og, om, ol, os⟩
  cases og <;> cases om <;> cases ol <;> cases os <;>
    simp [encodeChapter, decodeChapter, optField, jGet, asStr,
      stringToGenre_genreToString, stringToMaturity_maturityToString,
      stringToLanguage_languageToString, decodeSettings_encodeSettings]

theorem decodeChapters_map_encode (l : List StoryChapter) :
    decodeChapters (l.map encodeChapter) = some l := by
  induction l with
  | nil => rfl
  | cons c cs ih => simp [decodeChapters, decodeChapter_encodeChapter, ih]

theorem decodeProject_serializeProject (p : StoryProject) :
    decodeProject (serializeProject p) = some p := by
  rcases p with ⟨i, t, d, g, chs, m, l, st, ca⟩
  simp [serializeProject, decodeProject, jGet, asStr, asNum,
    stringToGenre_genreToString, stringToMaturity_maturityToString,
    stringToLanguage_languageToString, decodeSettings_encodeSettings,
    decodeChapters_map_encode]

theorem decodeProjectList_map_serialize (ps : List StoryProject) :
    decodeProjectList (ps.map serializeProject) = some ps := by
  induction ps with
  | nil => rfl
  | cons p rest ih => simp [decodeProjectList, decodeProject_serializeProject, ih]

theorem load_saveAll (ps : List StoryProject) : load (saveAll ps) = ps := by
  simp [load, saveAll, serializeProjects, decodeProjects,
    decodeProjectList_map_serialize]

/-- The serialized representation is injective: two projects with equal
serialized forms (equal `JSON.stringify` strings) are equal.  This justifies
modelling the string comparison `JSON.stringify(activeProject) ===
lastSavedRef.current` as a comparison of the project values themselves. -/
theorem serializeProject_injective (p q : StoryProject)
    (h : serializeProject p = serializeProject q) : p = q := by
  have h2 := congrArg decodeProject h
  rw [decodeProject_serializeProject, decodeProject_serializeProject] at h2
  exact Option.some_injective _ h2

/-! ## Settings Resolver -/

/-- The four resolved generation parameters handed to the Generation Client
by `handleGenerate` / `handleContinue`. -/
structure GenParams where
  genre : StoryGenre
  settings : GenerationSettings
  maturity : MaturityLevel
  language : LanguageStyle
deriving DecidableEq, Repr

/-- The parameter resolution in `handleGenerate` (src/App.tsx lines 202-205):
`currentChapter.genre || activeProject.genre` etc.; the `||` fallback on these
values coincides with nullish fallback because every enum string is non-empty
and a settings object is always truthy. -/
def generateParams (p : StoryProject) (c : StoryChapter) : GenParams :=
  { genre := c.genre.getD p.genre
    settings := c.settings.getD p.settings
    maturity := c.maturityLevel.getD p.maturityLevel
    language := c.languageStyle.getD p.languageStyle }

/-- The parameter resolution in `handleContinue` (src/App.tsx lines 241-244),
textually identical to the one in `handleGenerate`. -/
def continueParams (p : StoryProject) (c : StoryChapter) : GenParams :=
  { genre := c.genre.getD p.genre
    settings := c.settings.getD p.settings
    maturity := c.maturityLevel.getD p.maturityLevel
    language := c.languageStyle.getD p.languageStyle }

/-- Modelled from the spec (section 4.2): the chapter override when set,
else the project default. -/
def effectiveGenre (p : StoryProject) (c : StoryChapter) : StoryGenre :=
  match c.genre with
  | some g => g
  | none => p.genre

/-- Modelled from the spec (section 4.2). -/
def effectiveMaturity (p : StoryProject) (c : StoryChapter) : MaturityLevel :=
  match c.maturityLevel with
  | some m => m
  | none => p.maturityLevel

/-- Modelled from the spec (section 4.2). -/
def effectiveLanguageStyle (p : StoryProject) (c : StoryChapter) : LanguageStyle :=
  match c.languageStyle with
  | some l => l
  | none => p.languageStyle

/-- Modelled from the spec (section 4.2): whole-object fallback, no per-field
merge between a chapter settings override and the project settings. -/
def effectiveSettings (p : StoryProject) (c : StoryChapter) : GenerationSettings :=
  match c.settings with
  | some s => s
  | none => p.settings

/-- `hasChapterOverrides` (src/App.tsx line 329):
`!!(chapter.genre || chapter.maturityLevel || chapter.languageStyle ||
chapter.settings)`. -/
def hasOverrides (c : StoryChapter) : Bool :=
  c.genre.isSome || c.maturityLevel.isSome || c.languageStyle.isSome || c.settings.isSome

/-- The chapter transformation performed by `clearChapterOverrides`
(src/App.tsx lines 345-351): destructuring the four override fields out of
the chapter record. -/
def clearOverrides (c : StoryChapter) : StoryChapter :=
  { c with genre := none, maturityLevel := none, languageStyle := none, settings := none }

/-! ## Application state and event-loop steps -/

/-- The save-status state machine of the Autosave Controller
(src/App.tsx line 35). -/
inductive SaveStatus where
  | idle | unsaved | saving | saved
deriving DecidableEq, Repr

/-- The data captured by the closure of an in-flight generation or
continuation call: the `activeProject`, `activeChapterIndex` and chapter
values from the render that created the handler, plus the resolved
parameters passed to the Generation Client. -/
structure FlightCtx where
  proj : StoryProject
  idx : Nat
  chapter : StoryChapter
  params : GenParams
deriving DecidableEq, Repr

/-- The relevant React state of `App` (src/App.tsx lines 28-41) together with
the storage cell and an observation log of Persistence Store writes.

`lastSavedRef` holds the project whose serialized form is stored in
`lastSavedRef.current` (`none` models the initial empty string, which is not
the serialization of any project); by `serializeProject_injective`, comparing
serialized strings coincides with comparing these values.  `pendingAutosave`
models whether the single autosave `setTimeout` is armed; `pendingStatusIdle`
and `pendingErrorClear` model the cosmetic 3-second timers.  `genFlight` /
`contFlight` are the continuations of outstanding Generation Client calls
(present exactly while `isGenerating` / `isContinuing`).  `writes` records
each collection handed to `localStorage.setItem`, newest last. -/
structure AppState where
  savedProjects : List StoryProject
  activeProject : Option StoryProject
  activeChapterIndex : Nat
  isGenerating : Bool
  isContinuing : Bool
  errorMsg : Option (String × Bool)
  saveStatus : SaveStatus
  lastSavedTime : Option String
  lastSavedRef : Option StoryProject
  pendingAutosave : Bool
  pendingStatusIdle : Bool
  pendingErrorClear : Bool
  genFlight : Option FlightCtx
  contFlight : Option FlightCtx
  storage : Option Json
  writes : List (List StoryProject)

/-- The `findIndex(p => p.id === activeProject.id)` scan inside
`handleSaveProject` (src/App.tsx line 73): index of the first element with
the given id. -/
def findIndexById : List StoryProject → String → Option Nat
  | [], _ => none
  | q :: qs, i => if q.id == i then some 0 else (findIndexById qs i).map (· + 1)

/-- The `updated` collection computed inside `handleSaveProject`. -/
def mergeProject (l : List StoryProject) (p : StoryProject) : List StoryProject :=
  match findIndexById l p.id with
  | some i => l.set i p
  | none => p :: l

/-- `handleSaveProject` (src/App.tsx lines 68-96).  `now` is the display
string produced by `new Date().toLocaleTimeString`.  The function does not
touch the autosave timer. -/
def handleSaveProject (isAuto : Bool) (now : String) (s : AppState) : AppState :=
  match s.activeProject with
  | none => s
  | some active =>
    let updated := mergeProject s.savedProjects active
    let s2 := { s with
      savedProjects := updated
      storage := some (serializeProjects updated)
      writes := s.writes ++ [updated]
      lastSavedRef := some active
      lastSavedTime := some now
      saveStatus := SaveStatus.saved
      pendingStatusIdle := true }
    if isAuto then s2
    else { s2 with errorMsg := some ("সফলভাবে সংরক্ষিত!", true), pendingErrorClear := true }

/-- The auto-save effect (src/App.tsx lines 99-109), run whenever the
`activeProject` reference changes: the cleanup of the previous run clears any
pending timer; then, if the active project's serialized form differs from the
baseline, the status becomes `unsaved` and the timer is re-armed. -/
def autosaveEffect (s : AppState) : AppState :=
  let s2 := { s with pendingAutosave := false }
  match s2.activeProject with
  | none => s2
  | some p =>
    if some p = s2.lastSavedRef then s2
    else { s2 with saveStatus := SaveStatus.unsaved, pendingAutosave := true }

/-- A mutation of the active project (any `setActiveProject` call from an
editing site), followed by the auto-save effect. -/
def mutateActive (s : AppState) (p : StoryProject) : AppState :=
  autosaveEffect { s with activeProject := some p }

/-- A burst of successive mutations, no timer firing in between. -/
def mutateBurst (s : AppState) : List StoryProject → AppState
  | [] => s
  | p :: ps => mutateBurst (mutateActive s p) ps

/-- The autosave timer elapsing: `handleSaveProject(true)` runs if the timer
is still armed. -/
def timerFire (now : String) (s : AppState) : AppState :=
  if s.pendingAutosave then handleSaveProject true now { s with pendingAutosave := false }
  else s

/-- The cosmetic 3-second timer reverting `saved` to `idle`
(src/App.tsx line 93). -/
def statusIdleFire (s : AppState) : AppState :=
  if s.pendingStatusIdle then
    { s with pendingStatusIdle := false, saveStatus := SaveStatus.idle }
  else s

/-- The cosmetic 3-second timer dismissing the manual-save success message
(src/App.tsx line 90). -/
def errorClearFire (s : AppState) : AppState :=
  if s.pendingErrorClear then { s with pendingErrorClear := false, errorMsg := none }
  else s

/-- `createNewProject` (src/App.tsx lines 111-127): the fresh project value
(ids and timestamp generated from `Date.now()` are parameters). -/
def freshProject (pid cid : String) (now : Rat) : StoryProject :=
  { id := pid
    title := "নতুন উপন্যাস"
    description := ""
    genre := StoryGenre.Romance
    maturityLevel := MaturityLevel.Adult
    languageStyle := LanguageStyle.ModernColloquial
    settings := DEFAULT_SETTINGS
    createdAt := now
    chapters := [{ id := cid, title := "পরিচ্ছেদ ১", content := ""
                   genre := none, maturityLevel := none, languageStyle := none
                   settings := none }] }

/-- `createNewProject` (src/App.tsx lines 111-127), followed by the
auto-save effect triggered by the `activeProject` change. -/
def createNewProject (pid cid : String) (now : Rat) (s : AppState) : AppState :=
  let p := freshProject pid cid now
  autosaveEffect { s with
    activeProject := some p
    activeChapterIndex := 0
    lastSavedTime := none
    lastSavedRef := some p }

/-- `loadProject` (src/App.tsx lines 177-183), followed by the auto-save
effect triggered by the `activeProject` change (the sidebar handling is
display-only and omitted). -/
def loadProject (s : AppState) (p : StoryProject) : AppState :=
  autosaveEffect { s with
    activeProject := some p
    activeChapterIndex := 0
    lastSavedTime := none
    lastSavedRef := some p }

/-- `deleteChapter` (src/App.tsx lines 147-164).  `confirmed` is the result
of the `window.confirm` dialog.  Deleting below one chapter is rejected with
an error message; otherwise the chapter at `idx` is removed
(`filter((_, i) => i !== idx)`) and the active index is re-pointed:
`Math.max(0, activeChapterIndex - 1)` when `idx <= activeChapterIndex`
(`Nat` subtraction truncates at zero exactly as the `Math.max` clamp does). -/
def deleteChapter (idx : Nat) (confirmed : Bool) (s : AppState) : AppState :=
  match s.activeProject with
  | none => s
  | some p =>
    if p.chapters.length ≤ 1 then
      { s with errorMsg := some ("কমপক্ষে একটি পরিচ্ছেদ থাকতে হবে।", false) }
    else if !confirmed then s
    else
      let chs := p.chapters.eraseIdx idx
      let nextIdx := if idx ≤ s.activeChapterIndex
        then Nat.max 0 (s.activeChapterIndex - 1)
        else s.activeChapterIndex
      autosaveEffect { s with
        activeProject := some { p with chapters := chs }
        activeChapterIndex := nextIdx }

/-- `clearChapterOverrides` (src/App.tsx lines 345-351) applied to the active
chapter, followed by the auto-save effect. -/
def clearChapterOverrides (s : AppState) : AppState :=
  match s.activeProject with
  | none => s
  | some p =>
    match p.chapters.get? s.activeChapterIndex with
    | none => s
    | some c =>
      autosaveEffect { s with
        activeProject := some
          { p with chapters := p.chapters.set s.activeChapterIndex (clearOverrides c) } }

/-! ## Generation Client call sites -/

/-- The whitespace class stripped by the JavaScript `String.prototype.trim`
(the characters that can actually occur in this application's data). -/
def jsWhitespace (ch : Char) : Bool :=
  ch = ' ' || ch = '\t' || ch = '\n' || ch = '\r' || ch = '\x0b' || ch = '\x0c'

/-- Leading-whitespace strip on the character list. -/
def trimLeftChars (l : List Char) : List Char :=
  l.dropWhile jsWhitespace

/-- Trailing-whitespace strip on the character list. -/
def trimRightChars (l : List Char) : List Char :=
  (l.reverse.dropWhile jsWhitespace).reverse

/-- The JavaScript `trim()`: whitespace stripped from both ends. -/
def jsTrim (s : String) : String :=
  String.mk (trimRightChars (trimLeftChars s.data))

/-- The JavaScript `endsWith(suffix)`. -/
def jsEndsWith (s suffix : String) : Bool :=
  suffix.data.isSuffixOf s.data

/-- `handleGenerate` up to the `await` (src/App.tsx lines 194-206): the guard
rejects when no project is active or a generation or continuation call is
already in flight, resolves the effective parameters from the chapter
overrides, sets the in-flight flag, clears the message and issues the call. -/
def handleGenerateStart (s : AppState) : AppState :=
  match s.activeProject with
  | none => s
  | some p =>
    if s.isGenerating || s.isContinuing then s
    else
      match p.chapters.get? s.activeChapterIndex with
      | none => s
      | some c =>
        { s with
          isGenerating := true
          errorMsg := none
          genFlight := some ⟨p, s.activeChapterIndex, c, generateParams p c⟩ }

/-- The generation call settling (src/App.tsx lines 218-227).
`Except.error m` is the rejection path (`catch`), `Except.ok none` a call
resolving with `undefined`, `Except.ok (some r)` a call resolving with text;
`if (result)` makes both `undefined` and the empty string a no-op.  The
content is written into the chapter captured by the closure. -/
def handleGenerateResolve (s : AppState) (outcome : Except String (Option String)) :
    AppState :=
  match s.genFlight with
  | none => s
  | some ctx =>
    let base := { s with genFlight := none, isGenerating := false }
    match outcome with
    | Except.error m =>
      { base with errorMsg := some (if m == "" then "কাহিনী তৈরিতে সমস্যা হয়েছে।" else m, false) }
    | Except.ok none => base
    | Except.ok (some r) =>
      if r == "" then base
      else
        autosaveEffect { base with
          activeProject := some
            { ctx.proj with
              chapters := ctx.proj.chapters.set ctx.idx { ctx.chapter with content := r } } }

/-- `handleContinue` up to the `await` (src/App.tsx lines 230-254).  The
same in-flight guard applies; an empty chapter (no plain text after the
browser strips the HTML — `hasText` is that DOM-computed check) is rejected
with a message.  The resolved parameters are the same chapter-then-project
fallback. -/
def handleContinueStart (hasText : Bool) (s : AppState) : AppState :=
  match s.activeProject with
  | none => s
  | some p =>
    if s.isGenerating || s.isContinuing then s
    else
      match p.chapters.get? s.activeChapterIndex with
      | none => { s with errorMsg := some ("এগিয়ে নেওয়ার জন্য প্রথমে কিছু টেক্সট লিখুন।", false) }
      | some c =>
        if !hasText then
          { s with errorMsg := some ("এগিয়ে নেওয়ার জন্য প্রথমে কিছু টেক্সট লিখুন।", false) }
        else
          { s with
            isContinuing := true
            errorMsg := none
            contFlight := some ⟨p, s.activeChapterIndex, c, continueParams p c⟩ }

/-- The separator chosen by `handleContinue` (src/App.tsx line 258), computed
on the untrimmed previous content. -/
def continueSeparator (lastPart : String) : String :=
  if jsEndsWith lastPart "</p>" || jsEndsWith lastPart ">" then "" else "<br><br>"

/-- The continuation call settling (src/App.tsx lines 255-266): on a
non-empty result the captured chapter's content becomes
`lastPart.trim() + separator + result.trim()`. -/
def handleContinueResolve (s : AppState) (outcome : Except String (Option String)) :
    AppState :=
  match s.contFlight with
  | none => s
  | some ctx =>
    let base := { s with contFlight := none, isContinuing := false }
    match outcome with
    | Except.error _ =>
      { base with errorMsg := some ("কাহিনী এগিয়ে নিতে সমস্যা হয়েছে।", false) }
    | Except.ok none => base
    | Except.ok (some r) =>
      if r == "" then base
      else
        let lastPart := ctx.chapter.content
        let newContent := jsTrim lastPart ++ continueSeparator lastPart ++ jsTrim r
        autosaveEffect { base with
          activeProject := some
            { ctx.proj with
              chapters := ctx.proj.chapters.set ctx.idx
                { ctx.chapter with content := newContent } } }

/-! ## Structural lemmas about the event-loop steps -/

theorem autosaveEffect_preserves (s : AppState) :
    (autosaveEffect s).activeProject = s.activeProject ∧
    (autosaveEffect s).activeChapterIndex = s.activeChapterIndex ∧
    (autosaveEffect s).errorMsg = s.errorMsg ∧
    (autosaveEffect s).savedProjects = s.savedProjects ∧
    (autosaveEffect s).lastSavedRef = s.lastSavedRef ∧
    (autosaveEffect s).writes = s.writes ∧
    (autosaveEffect s).storage = s.storage ∧
    (autosaveEffect s).isGenerating = s.isGenerating ∧
    (autosaveEffect s).isContinuing = s.isContinuing ∧
    (autosaveEffect s).genFlight = s.genFlight ∧
    (autosaveEffect s).contFlight = s.contFlight := by
  rcases s with ⟨sp, ap, aci, ig, ic, em, ss, lst, lsr, pa, psi, pec, gf, cf, st, w⟩
  unfold autosaveEffect
  cases ap with
  | none => exact ⟨rfl, rfl, rfl, rfl, rfl, rfl, rfl, rfl, rfl, rfl, rfl⟩
  | some p =>
    dsimp
    split <;> exact ⟨rfl, rfl, rfl, rfl, rfl, rfl, rfl, rfl, rfl, rfl, rfl⟩

theorem autosaveEffect_some (s : AppState) (p : StoryProject)
    (h : s.activeProject = some p) :
    (autosaveEffect s).pendingAutosave = (if some p = s.lastSavedRef then false else true) ∧
    (autosaveEffect s).saveStatus =
      (if some p = s.lastSavedRef then s.saveStatus else SaveStatus.unsaved) := by
  rcases s with ⟨sp, ap, aci, ig, ic, em, ss, lst, lsr, pa, psi, pec, gf, cf, st, w⟩
  cases ap with
  | none => exact absurd h (by simp)
  | some q =>
    have hq : q = p := by injection h
    subst hq
    unfold autosaveEffect
    dsimp
    split <;> simp_all

theorem mutateActive_fields (s : AppState) (p : StoryProject) :
    (mutateActive s p).activeProject = some p ∧
    (mutateActive s p).writes = s.writes ∧
    (mutateActive s p).savedProjects = s.savedProjects ∧
    (mutateActive s p).lastSavedRef = s.lastSavedRef ∧
    (mutateActive s p).pendingAutosave = (if some p = s.lastSavedRef then false else true) := by
  rcases s with ⟨sp, ap, aci, ig, ic, em, ss, lst, lsr, pa, psi, pec, gf, cf, st, w⟩
  unfold mutateActive autosaveEffect
  dsimp
  split <;> exact ⟨rfl, rfl, rfl, rfl, rfl⟩

theorem mutateBurst_preserves (ps : List StoryProject) (s : AppState) :
    (mutateBurst s ps).writes = s.writes ∧
    (mutateBurst s ps).savedProjects = s.savedProjects ∧
    (mutateBurst s ps).lastSavedRef = s.lastSavedRef := by
  induction ps generalizing s with
  | nil => exact ⟨rfl, rfl, rfl⟩
  | cons p rest ih =>
    have hm := mutateActive_fields s p
    have hr := ih (mutateActive s p)
    exact ⟨hr.1.trans hm.2.1, hr.2.1.trans hm.2.2.1, hr.2.2.trans hm.2.2.2.1⟩

theorem mutateBurst_append_one (qs : List StoryProject) (p : StoryProject) (s : AppState) :
    mutateBurst s (qs ++ [p]) = mutateActive (mutateBurst s qs) p := by
  induction qs generalizing s with
  | nil => rfl
  | cons q rest ih => exact ih (mutateActive s q)

theorem handleSaveProject_some (isAuto : Bool) (now : String) (s : AppState)
    (p : StoryProject) (h : s.activeProject = some p) :
    (handleSaveProject isAuto now s).writes = s.writes ++ [mergeProject s.savedProjects p] ∧
    (handleSaveProject isAuto now s).savedProjects = mergeProject s.savedProjects p ∧
    (handleSaveProject isAuto now s).lastSavedRef = some p ∧
    (handleSaveProject isAuto now s).pendingAutosave = s.pendingAutosave ∧
    (handleSaveProject isAuto now s).activeProject = some p ∧
    (handleSaveProject isAuto now s).saveStatus = SaveStatus.saved ∧
    (handleSaveProject isAuto now s).storage =
      some (serializeProjects (mergeProject s.savedProjects p)) := by
  rcases s with ⟨sp, ap, aci, ig, ic, em, ss, lst, lsr, pa, psi, pec, gf, cf, st, w⟩
  cases ap with
  | none => exact absurd h (by simp)
  | some q =>
    have hq : q = p := by injection h
    subst hq
    unfold handleSaveProject
    cases isAuto <;> exact ⟨rfl, rfl, rfl, rfl, rfl, rfl, rfl⟩

theorem timerFire_pending (now : String) (s : AppState) (h : s.pendingAutosave = true) :
    timerFire now s = handleSaveProject true now { s with pendingAutosave := false } := by
  unfold timerFire
  rw [h]
  rfl

theorem timerFire_idle (now : String) (s : AppState) (h : s.pendingAutosave = false) :
    timerFire now s = s := by
  unfold timerFire
  rw [h]
  rfl

theorem findIndexById_set_self (l : List StoryProject) (i : Nat) (p : StoryProject)
    (h : findIndexById l p.id = some i) : findIndexById (l.set i p) p.id = some i := by
  induction l generalizing i with
  | nil => simp [findIndexById] at h
  | cons q qs ih =>
    by_cases hq : (q.id == p.id) = true
    · unfold findIndexById at h
      rw [hq] at h
      have hi : i = 0 := by
        injection h with h0
        exact h0.symm
      subst hi
      simp [findIndexById, List.set]
    · have hqf : (q.id == p.id) = false := by
        cases hqb : (q.id == p.id) with
        | true => exact absurd hqb hq
        | false => rfl
      unfold findIndexById at h
      rw [hqf] at h
      cases hrec : findIndexById qs p.id with
      | none => rw [hrec] at h; simp at h
      | some j =>
        rw [hrec] at h
        simp at h
        subst h
        have := ih j hrec
        simp [List.set, findIndexById, hqf, this]

theorem mergeProject_idem (l : List StoryProject) (p : StoryProject) :
    mergeProject (mergeProject l p) p = mergeProject l p := by
  unfold mergeProject
  cases hf : findIndexById l p.id with
  | none =>
    have : findIndexById (p :: l) p.id = some 0 := by
      simp [findIndexById]
    rw [this]
    rfl
  | some i =>
    rw [findIndexById_set_self l i p hf]
    exact List.set_set p p l i

theorem length_eraseIdx_ge (l : List StoryChapter) (i : Nat) :
    l.length - 1 ≤ (l.eraseIdx i).length := by
  induction l generalizing i with
  | nil => simp
  | cons a as ih =>
    cases i with
    | zero => simp [List.eraseIdx]
    | succ j =>
      have := ih j
      simp only [List.eraseIdx, List.length_cons]
      omega

theorem string_append_assoc (a b c : String) : a ++ b ++ c = a ++ (b ++ c) := by
  cases a with
  | mk la =>
    cases b with
    | mk lb =>
      cases c with
      | mk lc =>
        show String.mk (la ++ lb ++ lc) = String.mk (la ++ (lb ++ lc))
        rw [List.append_assoc]

/-! ## Concrete sample data used by witnesses and counterexamples -/

/-- Minimal settings value. -/
def sampleSettings : GenerationSettings :=
  { creativity := 1, length := ChapterLength.Short, tone := "t", customSystemPrompt := none }

/-- A chapter with no overrides. -/
def sampleChapter : StoryChapter :=
  { id := "ch1", title := "One", content := "", genre := none, maturityLevel := none,
    languageStyle := none, settings := none }

/-- A one-chapter project. -/
def sampleProject : StoryProject :=
  { id := "p1", title := "A", description := "", genre := StoryGenre.Romance,
    chapters := [sampleChapter], maturityLevel := MaturityLevel.General,
    languageStyle := LanguageStyle.Sadhu, settings := sampleSettings, createdAt := 0 }

/-- The same project after an edit (title changed). -/
def sampleProjectB : StoryProject := { sampleProject with title := "B" }

/-- The application state before any project is opened. -/
def emptyAppState : AppState :=
  { savedProjects := [], activeProject := none, activeChapterIndex := 0,
    isGenerating := false, isContinuing := false, errorMsg := none,
    saveStatus := SaveStatus.idle, lastSavedTime := none, lastSavedRef := none,
    pendingAutosave := false, pendingStatusIdle := false, pendingErrorClear := false,
    genFlight := none, contFlight := none, storage := none, writes := [] }

/-- State after opening `sampleProject`. -/
def stateLoaded : AppState := loadProject emptyAppState sampleProject

/-- State after then editing the title (one mutation; autosave timer armed,
status `unsaved`). -/
def stateAfterMutation : AppState := mutateActive stateLoaded sampleProjectB

/-! ## C1: effective generation parameters -/

/-- C1: for every project and chapter, the parameters `handleGenerate` and
`handleContinue` hand to the Generation Client are the chapter override when
present, else the project default, for genre, maturityLevel, languageStyle
and settings, with settings falling back as a whole object (the third
equation: whatever settings override is present is passed through verbatim,
with no per-field merge against the project settings). -/
theorem effective_params_override_then_default (p : StoryProject) (c : StoryChapter)
    (cs : GenerationSettings) :
    generateParams p c =
      ⟨effectiveGenre p c, effectiveSettings p c, effectiveMaturity p c,
        effectiveLanguageStyle p c⟩
  ∧ continueParams p c =
      ⟨effectiveGenre p c, effectiveSettings p c, effectiveMaturity p c,
        effectiveLanguageStyle p c⟩
  ∧ (generateParams p { c with settings := some cs }).settings = cs := by
  rcases c with ⟨i, t, ct, og, om, ol, os⟩
  cases og <;> cases om <;> cases ol <;> cases os <;> exact ⟨rfl, rfl, rfl⟩

/-! ## C3: persistence round-trip -/

/-- C3: loading after `saveAll` returns exactly the saved sequence, order
preserved and with every field restored. -/
theorem load_saveAll_roundtrip (p1 p2 : StoryProject) :
    load (saveAll [p1, p2]) = [p1, p2] :=
  load_saveAll [p1, p2]

/-! ## C8: clearOverrides -/

/-- C8: `clearChapterOverrides` removes the four override fields, is
idempotent, leaves `hasChapterOverrides` false, and `hasChapterOverrides` is
true exactly when at least one of the four override fields is present. -/
theorem clearOverrides_idempotent_spec (c : StoryChapter) :
    clearOverrides (clearOverrides c) = clearOverrides c
  ∧ hasOverrides (clearOverrides c) = false
  ∧ (clearOverrides c).genre = none
  ∧ (clearOverrides c).maturityLevel = none
  ∧ (clearOverrides c).languageStyle = none
  ∧ (clearOverrides c).settings = none
  ∧ (hasOverrides c = true ↔
      (c.genre ≠ none ∨ c.maturityLevel ≠ none ∨ c.languageStyle ≠ none ∨
        c.settings ≠ none)) := by
  refine ⟨rfl, rfl, rfl, rfl, rfl, rfl, ?_⟩
  rcases c with ⟨i, t, ct, og, om, ol, os⟩
  cases og <;> cases om <;> cases ol <;> cases os <;> simp [hasOverrides]

/-- Evaluation of the C8 statement at a concrete customized chapter. -/
theorem clearOverrides_idempotent_spec_witness :
    hasOverrides { sampleChapter with genre := some StoryGenre.Drama } = true
  ∧ hasOverrides (clearOverrides { sampleChapter with genre := some StoryGenre.Drama }) = false :=
  ⟨(clearOverrides_idempotent_spec
      { sampleChapter with genre := some StoryGenre.Drama }).2.2.2.2.2.2.mpr
      (Or.inl (by simp)),
   (clearOverrides_idempotent_spec
      { sampleChapter with genre := some StoryGenre.Drama }).2.1⟩

/-! ## C6: deleting the only chapter -/

/-- C6: when the active project has exactly one chapter, `deleteChapter` is
rejected with the user-visible message and leaves the project (hence the
chapters sequence) unchanged; and after any `deleteChapter` call on a
project satisfying the minimum-one-chapter invariant, the active project
still has at least one chapter. -/
theorem delete_only_chapter_rejected (s : AppState) (p : StoryProject) (idx : Nat)
    (confirmed : Bool) (ha : s.activeProject = some p) :
    (p.chapters.length = 1 →
      (deleteChapter idx confirmed s).activeProject = some p ∧
      (deleteChapter idx confirmed s).errorMsg =
        some ("কমপক্ষে একটি পরিচ্ছেদ থাকতে হবে।", false))
  ∧ (1 ≤ p.chapters.length →
      ∀ q, (deleteChapter idx confirmed s).activeProject = some q →
        1 ≤ q.chapters.length) := by
  rcases s with ⟨sp, ap, aci, ig, ic, em, ss, lst, lsr, pa, psi, pec, gf, cf, st, w⟩
  have ha2 : ap = some p := ha
  subst ha2
  constructor
  · intro h1
    have hle : p.chapters.length ≤ 1 := by omega
    unfold deleteChapter
    dsimp
    rw [if_pos hle]
    exact ⟨rfl, rfl⟩
  · intro h1 q hq
    unfold deleteChapter at hq
    dsimp at hq
    by_cases hle : p.chapters.length ≤ 1
    · rw [if_pos hle] at hq
      dsimp at hq
      injection hq with hq2
      rw [← hq2]
      exact h1
    · rw [if_neg hle] at hq
      cases confirmed with
      | false =>
        dsimp at hq
        injection hq with hq2
        rw [← hq2]
        exact h1
      | true =>
        dsimp at hq
        rw [(autosaveEffect_preserves _).1] at hq
        dsimp at hq
        injection hq with hq2
        rw [← hq2]
        dsimp
        have := length_eraseIdx_ge p.chapters idx
        omega

/-- Evaluation of C6 on the concrete one-chapter project. -/
theorem delete_only_chapter_rejected_witness :
    (deleteChapter 0 true stateLoaded).activeProject = some sampleProject ∧
    (deleteChapter 0 true stateLoaded).errorMsg =
      some ("কমপক্ষে একটি পরিচ্ছেদ থাকতে হবে।", false) :=
  (delete_only_chapter_rejected stateLoaded sampleProject 0 true rfl).1 rfl

/-! ## C7: active-index repointing on deletion -/

/-- C7: deleting the currently active chapter of a project with at least two
chapters moves the active index to `i - 1` when `i > 0` and keeps it at `0`
when `i = 0`, and the resulting index addresses a valid chapter of the
resulting project. -/
theorem delete_active_chapter_repoints (s : AppState) (p : StoryProject)
    (ha : s.activeProject = some p)
    (hlen : 2 ≤ p.chapters.length)
    (hidx : s.activeChapterIndex < p.chapters.length) :
    (deleteChapter s.activeChapterIndex true s).activeChapterIndex =
      (if s.activeChapterIndex = 0 then 0 else s.activeChapterIndex - 1)
  ∧ (deleteChapter s.activeChapterIndex true s).activeProject =
      some { p with chapters := p.chapters.eraseIdx s.activeChapterIndex }
  ∧ (deleteChapter s.activeChapterIndex true s).activeChapterIndex <
      (p.chapters.eraseIdx s.activeChapterIndex).length := by
  rcases s with ⟨sp, ap, aci, ig, ic, em, ss, lst, lsr, pa, psi, pec, gf, cf, st, w⟩
  have ha2 : ap = some p := ha
  subst ha2
  have hidx2 : aci < p.chapters.length := hidx
  have hle : ¬ p.chapters.length ≤ 1 := by omega
  unfold deleteChapter
  dsimp
  rw [if_neg hle, if_pos (Nat.le_refl aci)]
  rw [(autosaveEffect_preserves _).1, (autosaveEffect_preserves _).2.1]
  dsimp
  have hlen2 := List.length_eraseIdx_add_one hidx2
  have hm : Nat.max 0 (aci - 1) = aci - 1 := Nat.max_eq_right (Nat.zero_le _)
  rw [hm]
  refine ⟨?_, rfl, by omega⟩
  by_cases h0 : aci = 0
  · rw [if_pos h0, h0]
  · rw [if_neg h0]

/-- Evaluation of C7: a two-chapter project with active index 1; deletion
repoints the index to 0, which addresses the one remaining chapter. -/
def sampleChapter2 : StoryChapter := { sampleChapter with id := "ch2", title := "Two" }

/-- A two-chapter project. -/
def sampleProjectTwo : StoryProject :=
  { sampleProject with chapters := [sampleChapter, sampleChapter2] }

/-- State with `sampleProjectTwo` open and the second chapter active. -/
def stateTwoChapters : AppState :=
  { loadProject emptyAppState sampleProjectTwo with activeChapterIndex := 1 }

theorem delete_active_chapter_repoints_witness :
    (deleteChapter 1 true stateTwoChapters).activeChapterIndex = (if (1 : Nat) = 0 then 0 else 1 - 1)
  ∧ (deleteChapter 1 true stateTwoChapters).activeProject =
      some { sampleProjectTwo with chapters := [sampleChapter, sampleChapter2].eraseIdx 1 }
  ∧ (deleteChapter 1 true stateTwoChapters).activeChapterIndex <
      ([sampleChapter, sampleChapter2].eraseIdx 1).length :=
  delete_active_chapter_repoints stateTwoChapters sampleProjectTwo rfl (by decide) (by decide)

/-! ## C2: autosave debounce convergence -/

/-- C2 (amended): a burst of rapid mutations, each arriving before the
autosave delay elapses, performs no Persistence Store write during the
burst and leaves exactly one autosave timer armed (each mutation clears the
previous timer before re-arming — `pendingAutosave` is a single flag, as
the source keeps a single timer handle); on quiescence the timer fire
performs exactly one write, containing the final mutated state merged into
the saved collection — provided the final state's serialized form differs
from the saved baseline.  (A burst whose final state serializes equal to
the baseline produces no write at all; see the counterexample.) -/
theorem autosave_burst_single_write (s : AppState) (qs : List StoryProject)
    (p : StoryProject) (now : String)
    (hfinal : some p ≠ s.lastSavedRef) :
    (mutateBurst s (qs ++ [p])).writes = s.writes
  ∧ (mutateBurst s (qs ++ [p])).pendingAutosave = true
  ∧ (timerFire now (mutateBurst s (qs ++ [p]))).writes =
      s.writes ++ [mergeProject s.savedProjects p]
  ∧ (timerFire now (mutateBurst s (qs ++ [p]))).pendingAutosave = false
  ∧ (timerFire now (mutateBurst s (qs ++ [p]))).lastSavedRef = some p := by
  rw [mutateBurst_append_one]
  have hpres := mutateBurst_preserves qs s
  have hmf := mutateActive_fields (mutateBurst s qs) p
  have hpend : (mutateActive (mutateBurst s qs) p).pendingAutosave = true := by
    rw [hmf.2.2.2.2, hpres.2.2, if_neg hfinal]
  refine ⟨by rw [hmf.2.1, hpres.1], hpend, ?_⟩
  rw [timerFire_pending now _ hpend]
  have hact :
      ({ mutateActive (mutateBurst s qs) p with pendingAutosave := false } : AppState).activeProject
        = some p := hmf.1
  have hsave := handleSaveProject_some true now _ p hact
  have hw :
      ({ mutateActive (mutateBurst s qs) p with pendingAutosave := false } : AppState).writes
        = s.writes := by
    have : (mutateActive (mutateBurst s qs) p).writes = s.writes := by
      rw [hmf.2.1, hpres.1]
    exact this
  have hsp :
      ({ mutateActive (mutateBurst s qs) p with pendingAutosave := false } : AppState).savedProjects
        = s.savedProjects := by
    have : (mutateActive (mutateBurst s qs) p).savedProjects = s.savedProjects := by
      rw [hmf.2.2.1, hpres.2.1]
    exact this
  refine ⟨?_, ?_, ?_⟩
  · rw [hsave.1, hw, hsp]
  · rw [hsave.2.2.2.1]
  · rw [hsave.2.2.1]

/-- Evaluation of C2 on a concrete one-mutation burst from the freshly
loaded state: exactly one write, containing the mutated project. -/
theorem autosave_burst_single_write_witness :
    (timerFire "t" (mutateBurst stateLoaded ([] ++ [sampleProjectB]))).writes =
      stateLoaded.writes ++ [mergeProject stateLoaded.savedProjects sampleProjectB] :=
  (autosave_burst_single_write stateLoaded [] sampleProjectB "t" (by decide)).2.2.1

/-- C2 counterexample: a burst of two rapid mutations whose final state
serializes equal to the saved baseline (edit the title, then edit it back)
produces zero Persistence Store writes after quiescence, not exactly one:
the effect re-run clears the pending timer and, finding the serialized form
equal to the baseline, never re-arms it. -/
theorem autosave_burst_zero_writes_cex :
    stateLoaded.writes = []
  ∧ (timerFire "t" (mutateBurst stateLoaded [sampleProjectB, sampleProject])).writes = [] := by
  exact ⟨rfl, rfl⟩

/-! ## C4: manual save -/

/-- C4 (amended): a manual save performs the same merge-and-write
immediately, bypassing the debounce delay, but does not cancel a pending
auto-save timer: the pending flag is unchanged, and if a timer was pending
it later fires and writes the identical collection a second time (a
redundant duplicate write of the just-saved state). -/
theorem manual_save_immediate_no_cancel (s : AppState) (p : StoryProject)
    (now now2 : String) (ha : s.activeProject = some p) :
    (handleSaveProject false now s).writes = s.writes ++ [mergeProject s.savedProjects p]
  ∧ (handleSaveProject false now s).pendingAutosave = s.pendingAutosave
  ∧ (s.pendingAutosave = true →
      (timerFire now2 (handleSaveProject false now s)).writes =
        s.writes ++ [mergeProject s.savedProjects p, mergeProject s.savedProjects p]) := by
  have h1 := handleSaveProject_some false now s p ha
  refine ⟨h1.1, h1.2.2.2.1, ?_⟩
  intro hp
  have hpend : (handleSaveProject false now s).pendingAutosave = true := by
    rw [h1.2.2.2.1, hp]
  rw [timerFire_pending now2 _ hpend]
  have hact :
      ({ handleSaveProject false now s with pendingAutosave := false } : AppState).activeProject
        = some p := h1.2.2.2.2.1
  have h2 := handleSaveProject_some true now2 _ p hact
  rw [h2.1]
  have hw :
      ({ handleSaveProject false now s with pendingAutosave := false } : AppState).writes
        = s.writes ++ [mergeProject s.savedProjects p] := h1.1
  have hsp :
      ({ handleSaveProject false now s with pendingAutosave := false } : AppState).savedProjects
        = mergeProject s.savedProjects p := h1.2.1
  rw [hw, hsp, mergeProject_idem]
  simp

/-- Evaluation of C4 at the concrete post-mutation state. -/
theorem manual_save_immediate_no_cancel_witness :
    (timerFire "t2" (handleSaveProject false "t" stateAfterMutation)).writes =
      stateAfterMutation.writes ++
        [mergeProject stateAfterMutation.savedProjects sampleProjectB,
         mergeProject stateAfterMutation.savedProjects sampleProjectB] :=
  (manual_save_immediate_no_cancel stateAfterMutation sampleProjectB "t" "t2" rfl).2.2 rfl

/-- C4 counterexample: after one mutation the autosave timer is pending; a
manual save leaves it pending (the claim says it is cancelled so that no
redundant write follows), and when it fires the identical collection is
written a second time. -/
theorem manual_save_no_cancel_cex :
    (handleSaveProject false "t" stateAfterMutation).pendingAutosave = true
  ∧ (timerFire "t2" (handleSaveProject false "t" stateAfterMutation)).writes =
      [[sampleProjectB], [sampleProjectB]] := by
  exact ⟨rfl, rfl⟩

/-! ## C5: switching the active project -/

/-- C5 (amended): switching the active project (load or create) resets the
autosave baseline to the newly active project's serialized form, makes it
the active project and leaves no autosave timer armed — but the save-status
is left unchanged, not forced to `idle`. -/
theorem switch_project_resets_baseline (s : AppState) (p : StoryProject)
    (pid cid : String) (now : Rat) :
    (loadProject s p).lastSavedRef = some p
  ∧ (loadProject s p).activeProject = some p
  ∧ (loadProject s p).pendingAutosave = false
  ∧ (loadProject s p).saveStatus = s.saveStatus
  ∧ (createNewProject pid cid now s).lastSavedRef = some (freshProject pid cid now)
  ∧ (createNewProject pid cid now s).activeProject = some (freshProject pid cid now)
  ∧ (createNewProject pid cid now s).pendingAutosave = false
  ∧ (createNewProject pid cid now s).saveStatus = s.saveStatus := by
  rcases s with ⟨sp, ap, aci, ig, ic, em, ss, lst, lsr, pa, psi, pec, gf, cf, st, w⟩
  unfold loadProject createNewProject autosaveEffect
  simp

/-- C5 counterexample: loading a project while the previous project had
unsaved changes leaves the save-status at `unsaved` — it is not forced to
`idle`, and the newly loaded project is displayed as unsaved. -/
theorem switch_project_status_cex :
    stateAfterMutation.saveStatus = SaveStatus.unsaved
  ∧ (loadProject stateAfterMutation sampleProject).saveStatus = SaveStatus.unsaved
  ∧ SaveStatus.unsaved ≠ SaveStatus.idle :=
  ⟨rfl, rfl, by decide⟩

/-! ## C9: the in-flight guard -/

/-- C9 (amended): while a generation call is outstanding, triggering
generation again is rejected synchronously as a silent no-op — the state is
returned unchanged, with no state mutation (and no message is set; see the
counterexample for the claimed user-visible message) — and the chapter
content is updated exactly once, at resolution, from the first call's
result. -/
theorem inflight_second_trigger_noop (s : AppState) (p : StoryProject)
    (c : StoryChapter) (r : String)
    (ha : s.activeProject = some p)
    (hg : s.isGenerating = false) (hc : s.isContinuing = false)
    (hch : p.chapters.get? s.activeChapterIndex = some c)
    (hr : r ≠ "") :
    handleGenerateStart (handleGenerateStart s) = handleGenerateStart s
  ∧ (handleGenerateStart s).activeProject = s.activeProject
  ∧ (handleGenerateResolve (handleGenerateStart s) (Except.ok (some r))).activeProject =
      some { p with
        chapters := p.chapters.set s.activeChapterIndex { c with content := r } } := by
  rcases s with ⟨sp, ap, aci, ig, ic, em, ss, lst, lsr, pa, psi, pec, gf, cf, st, w⟩
  have ha2 : ap = some p := ha
  subst ha2
  have hg2 : ig = false := hg
  subst hg2
  have hc2 : ic = false := hc
  subst hc2
  have hch2 : p.chapters.get? aci = some c := hch
  have hrb : (r == "") = false := by
    cases hre : (r == "") with
    | true => exact absurd (eq_of_beq hre) hr
    | false => rfl
  unfold handleGenerateStart
  dsimp
  rw [hch2]
  dsimp
  refine ⟨rfl, rfl, ?_⟩
  unfold handleGenerateResolve
  dsimp
  rw [hrb]
  dsimp
  rw [(autosaveEffect_preserves _).1]

/-- Evaluation of C9 at the concrete loaded state: trigger, trigger again,
resolve with "x"; the chapter content is "x". -/
theorem inflight_second_trigger_noop_witness :
    (handleGenerateResolve (handleGenerateStart stateLoaded)
        (Except.ok (some "x"))).activeProject =
      some { sampleProject with
        chapters := [sampleChapter].set 0 { sampleChapter with content := "x" } } :=
  (inflight_second_trigger_noop stateLoaded sampleProject sampleChapter "x"
    rfl rfl rfl rfl (by decide)).2.2

/-- C9 counterexample: the second trigger while a call is outstanding is a
silent no-op — the state is returned unchanged and no user-visible message
is set (`errorMsg` remains `none`), contradicting the claimed user-visible
rejection message. -/
theorem inflight_trigger_silent_cex :
    (handleGenerateStart stateLoaded).isGenerating = true
  ∧ handleGenerateStart (handleGenerateStart stateLoaded) = handleGenerateStart stateLoaded
  ∧ (handleGenerateStart (handleGenerateStart stateLoaded)).errorMsg = none := by
  exact ⟨rfl, rfl, rfl⟩

/-! ## C10: continuation appends -/

/-- C10 (amended): when a continuation resolves with a non-empty result, the
captured chapter's content becomes the previous content trimmed, followed by
the separator (empty when the untrimmed previous content ends with "</p>"
or ">", otherwise "<br><br>"), followed by the trimmed continuation text —
so the TRIMMED existing chapter text is preserved as a prefix (the third
equation re-associates the concatenation to exhibit the prefix). -/
theorem continuation_appends_trimmed (s : AppState) (ctx : FlightCtx) (r : String)
    (hf : s.contFlight = some ctx) (hr : r ≠ "") :
    (handleContinueResolve s (Except.ok (some r))).activeProject =
      some { ctx.proj with
        chapters := ctx.proj.chapters.set ctx.idx
          { ctx.chapter with content :=
              (jsTrim ctx.chapter.content ++ continueSeparator ctx.chapter.content ++
                jsTrim r) } }
  ∧ continueSeparator ctx.chapter.content =
      (if jsEndsWith ctx.chapter.content "</p>" || jsEndsWith ctx.chapter.content ">"
        then "" else "<br><br>")
  ∧ jsTrim ctx.chapter.content ++ continueSeparator ctx.chapter.content ++ jsTrim r =
      jsTrim ctx.chapter.content ++ (continueSeparator ctx.chapter.content ++ jsTrim r) := by
  have hrb : (r == "") = false := by
    cases hre : (r == "") with
    | true => exact absurd (eq_of_beq hre) hr
    | false => rfl
  refine ⟨?_, rfl, string_append_assoc _ _ _⟩
  unfold handleContinueResolve
  rw [hf]
  dsimp
  rw [hrb]
  dsimp
  rw [(autosaveEffect_preserves _).1]

/-- Evaluation of C10: continue the empty chapter of the loaded state with
"y". -/
theorem continuation_appends_trimmed_witness :
    (handleContinueResolve (handleContinueStart true stateLoaded)
        (Except.ok (some "y"))).activeProject =
      some { sampleProject with
        chapters := [sampleChapter].set 0
          { sampleChapter with content := jsTrim "" ++ continueSeparator "" ++ jsTrim "y" } } :=
  (continuation_appends_trimmed (handleContinueStart true stateLoaded)
    ⟨sampleProject, 0, sampleChapter, continueParams sampleProject sampleChapter⟩
    "y" rfl (by decide)).1

/-- A chapter whose content begins with whitespace. -/
def chapterWS : StoryChapter := { sampleChapter with content := " x" }

/-- A project holding `chapterWS`. -/
def projectWS : StoryProject := { sampleProject with chapters := [chapterWS] }

/-- State with `projectWS` open and a continuation call outstanding. -/
def stateWS : AppState := handleContinueStart true (loadProject emptyAppState projectWS)

/-- C10 counterexample: with previous content " x" (leading space) and
continuation result "r", the resolved content is "x<br><br>r": the previous
content is trimmed before concatenation, so the existing chapter text " x"
is NOT preserved as a prefix of the new content — only its trimmed form
is. -/
theorem continuation_prefix_cex :
    (handleContinueResolve stateWS (Except.ok (some "r"))).activeProject =
      some { projectWS with chapters := [{ chapterWS with content := "x<br><br>r" }] }
  ∧ (" x").data.isPrefixOf ("x<br><br>r").data = false := by
  exact ⟨rfl, rfl⟩
